import Mathlib

/-!
Shallow embedding of the study-content conversion pipeline of `src/app.py`.

Conventions of the embedding:
* Lean `String` models Python `str`; Python slicing `s[:n]` is `pySlice`,
  Python `str.strip()` is `pyStrip` (whitespace modelled by
  `Char.isWhitespace`: space, tab, newline, carriage return).
* A Python variable that may hold `None` or a string is `Option String`;
  Python truthiness of a string is the test against the empty string, and
  truthiness of a byte string (audio) is the test against the empty list.
* External capabilities are oracles in an `Env` record: a `Bool` saying
  whether the client is configured, plus a response function returning
  `none` exactly when the underlying call raises an exception (the source
  wraps every call in try/except and converts exceptions to `None`).
* The session history (`st.session_state.processed_documents`) is passed
  explicitly as a `List DocEntry`; `datetime.now()` is the `now` field of
  `Env`.
-/

namespace StudyApp

/-- Python slicing `s[:n]`: the first `n` characters of `s`. -/
def pySlice (s : String) (n : Nat) : String := ⟨s.data.take n⟩

/-- Python `str.strip()`: drop whitespace characters from both ends. -/
def pyStrip (s : String) : String :=
  ⟨((s.data.dropWhile Char.isWhitespace).reverse.dropWhile Char.isWhitespace).reverse⟩

/-- True when every character of `s` is whitespace (vacuously true for the
empty string); this is the reading of the spec phrase
"empty or whitespace-only". -/
def whitespaceOnly (s : String) : Bool := s.data.all Char.isWhitespace

/-- The external-capability environment of one process lifetime
(`StudyContentProcessor.setup_apis` plus the module-level `openai.api_key`),
with the OpenAI chat endpoint and the Google TTS synthesis call modelled as
oracles, and `datetime.now()` as `now`. -/
structure Env where
  openai_api_key : Bool
  chat : String → Option String
  tts_client : Bool
  synth : String → Option (List Nat)
  now : Nat

/-- An uploaded file as seen by `process_content`: its declared MIME type,
and its content (PDF pages for the PDF reader — with `pdfReadable = false`
when `PyPDF2.PdfReader` raises — and the UTF-8 decoded bytes for the
plain-text path). -/
structure UploadedFile where
  fileType : String
  pdfReadable : Bool
  pages : List String
  raw : String

/-- `StudyContentProcessor.extract_text_from_pdf` (src/app.py lines
124-134): starting from the empty string, append each page text followed
by a newline; on an exception while reading the PDF, report the error and
return `None`. -/
def extract_text_from_pdf (pdfReadable : Bool) (pages : List String) : Option String :=
  if pdfReadable then
    some (pages.foldl (fun text page => text ++ page ++ "\n") "")
  else none

/-- Modelled from the spec words for the Extractor (section 4.1): the pages
extracted texts, in page order, joined with a newline SEPARATOR. Compared
against `extract_text_from_pdf`, which uses a newline terminator. -/
def pdf_text_spec : List String → String
  | [] => ""
  | [p] => p
  | p :: ps => p ++ "\n" ++ pdf_text_spec ps

/-- The chunk limit of `simplify_content_with_gpt` (line 144):
`text[:4000] if len(text) > 4000 else text`. -/
def gpt_text_chunk (text : String) : String :=
  if text.length > 4000 then pySlice text 4000 else text

/-- The prompt template of `simplify_content_with_gpt` (lines 146-158),
with the complexity level and the chunk substituted in. -/
def gpt_prompt (complexity_level text_chunk : String) : String :=
  "\n            Please simplify the following academic/research content for "
    ++ complexity_level
    ++ " level understanding:\n            \n            Requirements:\n            1. Break down complex concepts into simple explanations\n            2. Use analogies and examples where helpful\n            3. Create bullet points for key concepts\n            4. Maintain accuracy while improving clarity\n            5. Maximum 500 words for summary\n            \n            Content to simplify:\n            "
    ++ text_chunk ++ "\n            "

/-- `StudyContentProcessor.simplify_content_with_gpt` (lines 136-173):
return `None` when no API key is configured; otherwise truncate to the
4000-character chunk, build the prompt, and invoke the chat endpoint
(`none` models the except branch returning `None`). -/
def simplify_content_with_gpt (env : Env) (text complexity_level : String) : Option String :=
  if env.openai_api_key = false then none
  else env.chat (gpt_prompt complexity_level (gpt_text_chunk text))

/-- The TTS truncation of `generate_voice_note` (line 180):
`text[:1000] if len(text) > 1000 else text`. -/
def tts_input (text : String) : String :=
  if text.length > 1000 then pySlice text 1000 else text

/-- `StudyContentProcessor.generate_voice_note` (lines 175-204): when the
TTS client is configured, synthesize the truncated text (with `none` for
the except branch); otherwise return `None` (the fallback info message). -/
def generate_voice_note (env : Env) (text : String) : Option (List Nat) :=
  if env.tts_client then env.synth (tts_input text) else none

/-- The fixed template pieces of `create_visual_explanation`
(lines 209-220), before and after the embedded excerpt. -/
def visual_prompt_head : String :=
  "\n            Create a simple infographic or diagram to explain:\n            \n            "

def visual_prompt_tail : String :=
  "\n            \n            Visual elements should include:\n            - Key concepts as boxes or circles\n            - Connecting arrows showing relationships\n            - Simple icons or symbols\n            - Clear, readable text\n            - Bright, engaging colors\n            "

/-- `StudyContentProcessor.create_visual_explanation` (lines 206-225):
embed the first 300 characters of the given text into the fixed template.
The body is pure string formatting, so the except branch is unreachable
and the result is always `some`. -/
def create_visual_explanation (summary_text : String) : Option String :=
  some (visual_prompt_head ++ pySlice summary_text 300 ++ visual_prompt_tail)

/-- The text-extraction prefix of `process_content` (lines 322-331):
`text_content` after the upload/paste branching. `none` models Python
`None` (failed PDF extraction); the untouched initial value is `some ""`. -/
def text_content_of (uploaded_file : Option UploadedFile) (manual_text : String) :
    Option String :=
  match uploaded_file with
  | some f =>
      if f.fileType = "application/pdf" then
        extract_text_from_pdf f.pdfReadable f.pages
      else if f.fileType = "text/plain" then some f.raw
      else some ""
  | none => if pyStrip manual_text = "" then some "" else some manual_text

/-- Python truthiness `if summary:` / `if visual_prompt:` applied before a
string result is stored into the `results` dict (lines 350-351, 365-366):
an absent (`None`) or empty value is not stored. -/
def store_if_truthy : Option String → Option String
  | none => none
  | some s => if s = "" then none else some s

/-- Python truthiness `if audio_content:` applied before the audio bytes
are stored into the `results` dict (lines 358-359). -/
def store_audio_if_truthy : Option (List Nat) → Option (List Nat)
  | none => none
  | some a => if a = [] then none else some a

/-- The `results` dict of `process_content`: for each key, `some` when the
key is present. -/
structure Results where
  summary : Option String
  audio : Option (List Nat)
  visual : Option String
deriving DecidableEq

/-- The Summary stage (lines 347-351): only when requested; store the GPT
result if truthy. -/
def stage_summary (env : Env) (output_formats : List String)
    (complexity_level text_content : String) : Option String :=
  if "Summary" ∈ output_formats then
    store_if_truthy (simplify_content_with_gpt env text_content complexity_level)
  else none

/-- The Voice Note stage (lines 354-359): only when requested; the source
text is `results.get("summary", text_content[:1000])`. -/
def stage_audio (env : Env) (output_formats : List String) (text_content : String)
    (summary : Option String) : Option (List Nat) :=
  if "Voice Note" ∈ output_formats then
    store_audio_if_truthy (generate_voice_note env (summary.getD (pySlice text_content 1000)))
  else none

/-- The Visual Explanation stage (lines 362-366): only when requested; the
source text is `results.get("summary", text_content[:500])`. -/
def stage_visual (output_formats : List String) (text_content : String)
    (summary : Option String) : Option String :=
  if "Visual Explanation" ∈ output_formats then
    store_if_truthy (create_visual_explanation (summary.getD (pySlice text_content 500)))
  else none

/-- Lines 344-366 of `process_content`: run the three stages in order over
non-empty extracted text. -/
def run_stages (env : Env) (output_formats : List String)
    (complexity_level text_content : String) : Results :=
  ⟨stage_summary env output_formats complexity_level text_content,
   stage_audio env output_formats text_content
     (stage_summary env output_formats complexity_level text_content),
   stage_visual output_formats text_content
     (stage_summary env output_formats complexity_level text_content)⟩

/-- The source text chosen for the voice stage (line 356):
`results.get("summary", text_content[:1000])`. -/
def text_for_voice (env : Env) (output_formats : List String)
    (complexity_level text_content : String) : String :=
  (stage_summary env output_formats complexity_level text_content).getD
    (pySlice text_content 1000)

/-- One entry of `st.session_state.processed_documents` (lines 445-451). -/
structure DocEntry where
  timestamp : Nat
  original_length : Nat
  summary : String
  has_audio : Bool
  has_visual : Bool
deriving DecidableEq

/-- The history-entry construction of `display_results` (lines 445-451):
`results.get("summary", "")`, `"audio" in results`, `"visual" in results`. -/
def history_entry (env : Env) (results : Results) (original_text : String) : DocEntry :=
  ⟨env.now, original_text.length, results.summary.getD "",
   results.audio.isSome, results.visual.isSome⟩

/-- The history update of `display_results` (lines 453-456): insert at
index 0, then keep only the first 10 entries. -/
def record_history (history : List DocEntry) (entry : DocEntry) : List DocEntry :=
  (entry :: history).take 10

/-- The compression statistic of `display_results` (line 435):
`(len(results.get("summary", "")) / len(original_text) * 100) if "summary"
in results else 0`, over exact rational arithmetic. -/
def compressionPct (results : Results) (original_text : String) : ℚ :=
  if results.summary.isSome then
    ((results.summary.getD "").length : ℚ) / (original_text.length : ℚ) * 100
  else 0

/-- The observable outcome of one `process_content` call: the early
`InputError` return (line 334-335), or the produced `results` dict together
with the extracted text. -/
inductive Outcome where
  | inputError
  | ok (results : Results) (text_content : String)
deriving DecidableEq

/-- `process_content` (lines 319-369) followed by the state effect of
`display_results` (lines 441-456): extract text, fail when it is falsy
(`None` or empty), otherwise run the stages and record one history entry. -/
def process_content (env : Env) (uploaded_file : Option UploadedFile)
    (manual_text complexity_level : String) (output_formats : List String)
    (history : List DocEntry) : Outcome × List DocEntry :=
  match text_content_of uploaded_file manual_text with
  | none => (Outcome.inputError, history)
  | some t =>
      if t = "" then (Outcome.inputError, history)
      else
        (Outcome.ok (run_stages env output_formats complexity_level t) t,
         record_history history
           (history_entry env (run_stages env output_formats complexity_level t) t))

/-! ### Helper lemmas about the embedding -/

theorem pySlice_length (s : String) (n : Nat) : (pySlice s n).length = min n s.length := by
  show (s.data.take n).length = min n s.data.length
  exact List.length_take n s.data

theorem pySlice_length_le (s : String) (n : Nat) : (pySlice s n).length ≤ n := by
  show (s.data.take n).length ≤ n
  exact List.length_take_le n s.data

theorem pySlice_eq_self (s : String) (n : Nat) (h : s.length ≤ n) : pySlice s n = s := by
  show String.mk (s.data.take n) = s
  rw [List.take_of_length_le h]

theorem pySlice_pySlice (s : String) (m n : Nat) :
    pySlice (pySlice s m) n = pySlice s (min n m) := by
  show String.mk ((s.data.take m).take n) = String.mk (s.data.take (min n m))
  rw [List.take_take]

theorem string_eq_empty_of_length (s : String) (h : s.length = 0) : s = "" := by
  apply String.ext
  exact List.length_eq_zero.mp h

theorem tts_input_eq (s : String) : tts_input s = pySlice s 1000 := by
  unfold tts_input
  split
  · rfl
  · next h => exact (pySlice_eq_self s 1000 (Nat.le_of_not_lt h)).symm

theorem tts_input_of_short (s : String) (h : s.length ≤ 1000) : tts_input s = s := by
  rw [tts_input_eq]
  exact pySlice_eq_self s 1000 h

theorem gpt_text_chunk_eq (s : String) : gpt_text_chunk s = pySlice s 4000 := by
  unfold gpt_text_chunk
  split
  · rfl
  · next h => exact (pySlice_eq_self s 4000 (Nat.le_of_not_lt h)).symm

theorem pyStrip_eq_empty_of_ws (s : String) (h : whitespaceOnly s = true) : pyStrip s = "" := by
  have h1 : s.data.dropWhile Char.isWhitespace = [] :=
    List.dropWhile_eq_nil_iff.mpr (by simpa [whitespaceOnly, List.all_eq_true] using h)
  show String.mk _ = ""
  rw [h1]
  rfl

theorem store_if_truthy_ne_empty (o : Option String) (s : String)
    (h : store_if_truthy o = some s) : s ≠ "" := by
  cases o with
  | none => simp [store_if_truthy] at h
  | some v =>
      by_cases hv : v = "" <;> simp [store_if_truthy, hv] at h
      exact h ▸ hv

theorem visual_ne_empty (x : String) : visual_prompt_head ++ x ++ visual_prompt_tail ≠ "" := by
  intro h
  have hlen := congrArg String.length h
  rw [String.length_append, String.length_append] at hlen
  have hh : visual_prompt_head.length ≠ 0 := by decide
  have hz : ("" : String).length = 0 := rfl
  omega

theorem stage_summary_ne_empty (env : Env) (fmts : List String) (lvl t s : String)
    (h : stage_summary env fmts lvl t = some s) : s ≠ "" := by
  unfold stage_summary at h
  split at h
  · exact store_if_truthy_ne_empty _ _ h
  · simp at h

/-! ### Concrete environments and inputs for evaluation -/

/-- A fully configured environment: API key present, chat returns a fixed
summary, TTS configured and returning one audio byte. -/
def envOn : Env := ⟨true, fun _ => some "S", true, fun _ => some [1], 7⟩

/-- An environment with no external capability configured. -/
def envOff : Env := ⟨false, fun _ => none, false, fun _ => none, 7⟩

/-- A configured environment whose chat endpoint succeeds but returns the
empty string. -/
def envEmptyChat : Env := ⟨true, fun _ => some "", false, fun _ => none, 7⟩

/-- A plain-text upload whose decoded content is three spaces. -/
def fileWS : UploadedFile := ⟨"text/plain", true, [], "   "⟩

/-- An upload whose declared type is neither PDF nor plain text. -/
def fileOther : UploadedFile := ⟨"image/png", true, [], "stuff"⟩

/-- A history of ten pairwise distinct entries. -/
def hist10 : List DocEntry := (List.range 10).map (fun i => ⟨i, 1, "", false, false⟩)

/-- A fresh eleventh entry. -/
def entry0 : DocEntry := ⟨10, 2, "s", true, false⟩

/-! ### The claims -/

/-- C3: the history store holds at most 10 entries; every record operation
puts the new entry at index 0; when an 11th entry is inserted, the entry
previously at position 9 (the tail, `h.drop 9`) is evicted and the
retained entries `h.take 9` keep their relative newest-first order. -/
theorem spec_c3 (h : List DocEntry) (e : DocEntry) :
    (record_history h e).length ≤ 10 ∧
    (record_history h e)[0]? = some e ∧
    (h.length = 10 →
      record_history h e = e :: h.take 9 ∧
      h[9]?.toList = h.drop 9 ∧
      (record_history h e).length = 10) := by
  have h10 : (10 : Nat) = 9 + 1 := rfl
  refine ⟨List.length_take_le 10 _, ?_, ?_⟩
  · show ((e :: h).take 10)[0]? = some e
    rw [h10, List.take_succ_cons]
    simp
  · intro hlen
    have h9 : 9 < h.length := by omega
    refine ⟨?_, ?_, ?_⟩
    · show (e :: h).take 10 = e :: h.take 9
      rw [h10, List.take_succ_cons]
    · rw [List.getElem?_eq_getElem h9, List.drop_eq_getElem_cons h9,
        List.drop_eq_nil_of_le (by omega)]
      rfl
    · show ((e :: h).take 10).length = 10
      rw [List.length_take]
      simp
      omega

/-- C3 witness: the capacity behaviour evaluated on a concrete full
history of ten distinct entries. -/
theorem spec_c3_witness :
    record_history hist10 entry0 = entry0 :: hist10.take 9 ∧
    hist10[9]?.toList = hist10.drop 9 ∧
    (record_history hist10 entry0).length = 10 :=
  (spec_c3 hist10 entry0).2.2 (by decide)

/-- C7: when Summary is requested, the chunk handed to the Summarizer is
exactly the first 4000 characters of the original text (hard cutoff, and
text of at most 4000 characters is passed unmodified), embedded in the
fixed prompt together with the requested complexity level. -/
theorem spec_c7 (env : Env) (t lvl : String) :
    gpt_text_chunk t = pySlice t 4000 ∧
    (t.length ≤ 4000 → gpt_text_chunk t = t) ∧
    (env.openai_api_key = true →
      simplify_content_with_gpt env t lvl =
        env.chat (gpt_prompt lvl (gpt_text_chunk t))) := by
  refine ⟨gpt_text_chunk_eq t, ?_, ?_⟩
  · intro h
    rw [gpt_text_chunk_eq]
    exact pySlice_eq_self t 4000 h
  · intro hk
    simp [simplify_content_with_gpt, hk]

/-- C7 witness: a short text is passed unmodified to the configured chat
endpoint inside the fixed prompt. -/
theorem spec_c7_witness :
    gpt_text_chunk "ab" = "ab" ∧
    simplify_content_with_gpt envOn "ab" "beginner" =
      envOn.chat (gpt_prompt "beginner" (gpt_text_chunk "ab")) :=
  ⟨(spec_c7 envOn "ab" "beginner").2.1 (by decide),
   (spec_c7 envOn "ab" "beginner").2.2 rfl⟩

theorem pdf_foldl_acc (pages : List String) :
    ∀ init : String,
      pages.foldl (fun text page => text ++ page ++ "\n") init =
        init ++ pages.foldl (fun text page => text ++ page ++ "\n") "" := by
  induction pages with
  | nil =>
      intro init
      simp [List.foldl]
  | cons p ps ih =>
      intro init
      simp only [List.foldl]
      rw [ih (init ++ p ++ "\n"), ih ("" ++ p ++ "\n")]
      simp [String.append_assoc]

theorem pdf_fold_eq_spec (p : String) (ps : List String) :
    (p :: ps).foldl (fun text page => text ++ page ++ "\n") "" =
      pdf_text_spec (p :: ps) ++ "\n" := by
  induction ps generalizing p with
  | nil => simp [List.foldl, pdf_text_spec]
  | cons q qs ih =>
      have step : (p :: q :: qs).foldl (fun text page => text ++ page ++ "\n") "" =
          ("" ++ p ++ "\n") ++ (q :: qs).foldl (fun text page => text ++ page ++ "\n") "" := by
        rw [List.foldl_cons]
        exact pdf_foldl_acc (q :: qs) ("" ++ p ++ "\n")
      rw [step, ih q]
      rw [show pdf_text_spec (p :: q :: qs) = p ++ "\n" ++ pdf_text_spec (q :: qs) from rfl]
      simp [String.append_assoc]

/-- C8 counterexample: on a readable single-page PDF whose page text is
"x", the extractor returns "x" followed by a newline, while the pages
joined with a newline separator give plain "x". -/
theorem spec_c8_cex :
    extract_text_from_pdf true ["x"] = some "x\n" ∧
    pdf_text_spec ["x"] = "x" ∧
    extract_text_from_pdf true ["x"] ≠ some (pdf_text_spec ["x"]) :=
  ⟨rfl, rfl, by decide⟩

/-- C8 (amended): for every readable PDF with at least one page, the
extractor output is the pages joined with a newline separator FOLLOWED BY
a trailing newline (each page text is newline-terminated, not
newline-separated); an empty page list gives the empty string, and a page
that yields no text contributes an empty segment rather than an error. -/
theorem spec_c8 (pages : List String) :
    (pages ≠ [] →
      extract_text_from_pdf true pages = some (pdf_text_spec pages ++ "\n")) ∧
    extract_text_from_pdf true [] = some "" ∧
    (∀ ps : List String,
      extract_text_from_pdf true (ps ++ [""]) =
        some ((ps.foldl (fun text page => text ++ page ++ "\n") "") ++ "\n")) := by
  refine ⟨?_, rfl, ?_⟩
  · intro hne
    cases pages with
    | nil => exact absurd rfl hne
    | cons p ps =>
        show some _ = some _
        rw [pdf_fold_eq_spec]
  · intro ps
    show some _ = some _
    rw [List.foldl_append]
    simp [List.foldl]

/-- C8 witness: the amended description evaluated on a concrete
three-page PDF with an empty middle page. -/
theorem spec_c8_witness :
    extract_text_from_pdf true ["a", "", "b"] =
      some (pdf_text_spec ["a", "", "b"] ++ "\n") :=
  (spec_c8 ["a", "", "b"]).1 (by decide)

/-- C1 counterexample: an uploaded plain-text file whose decoded content is
three spaces gives whitespace-only, non-empty extracted text, yet the run
does not fail with InputError (it proceeds to the stages), because the code
tests only Python falsiness `if not text_content`. -/
theorem spec_c1_cex :
    text_content_of (some fileWS) "" = some "   " ∧
    whitespaceOnly "   " = true ∧
    ("   " : String) ≠ "" ∧
    (process_content envOff (some fileWS) "" "beginner" [] []).fst ≠
      Outcome.inputError :=
  ⟨rfl, by decide, by decide, by decide⟩

/-- C1 (amended): InputError is raised if and only if the extracted text is
falsy — `None` (failed PDF extraction) or the empty string. Whitespace-only
PASTED text is stripped to empty on the manual-text path and so raises
InputError, but whitespace-only text extracted from an uploaded file is
truthy and does not. When InputError is raised the pipeline stops
immediately: no artifacts are produced and the history is unchanged. -/
theorem spec_c1 (env : Env) (uf : Option UploadedFile) (mt lvl : String)
    (fmts : List String) (history : List DocEntry) :
    ((process_content env uf mt lvl fmts history).fst = Outcome.inputError ↔
      (text_content_of uf mt = none ∨ text_content_of uf mt = some "")) ∧
    (uf = none → whitespaceOnly mt = true →
      (process_content env uf mt lvl fmts history).fst = Outcome.inputError) ∧
    ((process_content env uf mt lvl fmts history).fst = Outcome.inputError →
      (process_content env uf mt lvl fmts history).snd = history) := by
  have hws : uf = none → whitespaceOnly mt = true →
      text_content_of uf mt = some "" := by
    intro hu hw
    subst hu
    simp [text_content_of, pyStrip_eq_empty_of_ws mt hw]
  cases htc : text_content_of uf mt with
  | none =>
      simp only [process_content, htc]
      refine ⟨by simp, ?_, by simp⟩
      intro hu hw
      have h2 := hws hu hw
      rw [htc] at h2
      exact absurd h2 (by simp)
  | some t =>
      by_cases ht : t = ""
      · subst ht
        simp only [process_content, htc]
        simp
      · simp only [process_content, htc, if_neg ht]
        refine ⟨by simp [ht], ?_, by simp⟩
        intro hu hw
        have h2 := hws hu hw
        rw [htc] at h2
        exact absurd (Option.some.inj h2) ht

/-- C1 witness: empty pasted text with no file raises InputError and
leaves the history unchanged. -/
theorem spec_c1_witness :
    (process_content envOff none "   " "beginner" [] []).fst =
      Outcome.inputError ∧
    (process_content envOff none "   " "beginner" [] []).snd = [] := by
  have h := spec_c1 envOff none "   " "beginner" [] []
  have h1 := h.2.1 rfl (by decide)
  exact ⟨h1, h.2.2 h1⟩

/-- C6: a run that raises InputError leaves the history store unchanged;
conversely a run that passes the input check records exactly one new
entry — the new history is the recorded entry consed on and trimmed, with
the new entry at position 0 and the length growing by one up to the cap. -/
theorem spec_c6 (env : Env) (uf : Option UploadedFile) (mt lvl : String)
    (fmts : List String) (history : List DocEntry) :
    ((process_content env uf mt lvl fmts history).fst = Outcome.inputError →
      (process_content env uf mt lvl fmts history).snd = history) ∧
    (∀ res t, (process_content env uf mt lvl fmts history).fst = Outcome.ok res t →
      (process_content env uf mt lvl fmts history).snd =
        record_history history (history_entry env res t) ∧
      ((process_content env uf mt lvl fmts history).snd)[0]? =
        some (history_entry env res t) ∧
      (process_content env uf mt lvl fmts history).snd.length =
        min (history.length + 1) 10) := by
  cases htc : text_content_of uf mt with
  | none => simp [process_content, htc]
  | some t =>
      by_cases ht : t = ""
      · subst ht
        simp [process_content, htc]
      · simp only [process_content, htc, if_neg ht]
        refine ⟨by simp, ?_⟩
        intro res t2 hok
        injection hok with hres ht2
        subst hres
        subst ht2
        refine ⟨rfl, ?_, ?_⟩
        · show ((history_entry env _ t :: history).take 10)[0]? = _
          rw [show (10 : Nat) = 9 + 1 from rfl, List.take_succ_cons]
          simp
        · show ((history_entry env _ t :: history).take 10).length = _
          rw [List.length_take]
          simp [Nat.min_comm]

/-- C6 witness: a successful run over pasted text records exactly its one
entry at the front of the empty history. -/
theorem spec_c6_witness :
    (process_content envOff none "hi" "beginner" [] []).snd =
      record_history [] (history_entry envOff ⟨none, none, none⟩ "hi") ∧
    (process_content envOff none "hi" "beginner" [] []).snd.length = min 1 10 := by
  have h := (spec_c6 envOff none "hi" "beginner" [] []).2
    ⟨none, none, none⟩ "hi" (by decide)
  exact ⟨h.1, by simpa using h.2.2⟩

/-- C10: when an uploaded file is present, the pasted text is ignored
entirely (the whole run result is independent of it), and the run fails
with InputError whenever the declared type is neither PDF nor plain text,
or the extraction yields no text (`None` or empty). -/
theorem spec_c10 (env : Env) (f : UploadedFile) (mt mt2 lvl : String)
    (fmts : List String) (history : List DocEntry) :
    process_content env (some f) mt lvl fmts history =
      process_content env (some f) mt2 lvl fmts history ∧
    (f.fileType ≠ "application/pdf" → f.fileType ≠ "text/plain" →
      (process_content env (some f) mt lvl fmts history).fst = Outcome.inputError) ∧
    (f.fileType = "application/pdf" →
      extract_text_from_pdf f.pdfReadable f.pages = none →
      (process_content env (some f) mt lvl fmts history).fst = Outcome.inputError) ∧
    (f.fileType = "application/pdf" →
      extract_text_from_pdf f.pdfReadable f.pages = some "" →
      (process_content env (some f) mt lvl fmts history).fst = Outcome.inputError) ∧
    (f.fileType = "text/plain" → f.raw = "" →
      (process_content env (some f) mt lvl fmts history).fst = Outcome.inputError) := by
  refine ⟨rfl, ?_, ?_, ?_, ?_⟩
  · intro h1 h2
    simp [process_content, text_content_of, h1, h2]
  · intro h1 h2
    simp [process_content, text_content_of, h1, h2]
  · intro h1 h2
    simp [process_content, text_content_of, h1, h2]
  · intro h1 h2
    simp [process_content, text_content_of, h1, h2]

/-- C10 witness: an upload of unsupported type with non-empty pasted text
alongside still fails with InputError, and the pasted text is ignored. -/
theorem spec_c10_witness :
    process_content envOff (some fileOther) "pasted" "beginner" [] [] =
      process_content envOff (some fileOther) "other pasted" "beginner" [] [] ∧
    (process_content envOff (some fileOther) "pasted" "beginner" [] []).fst =
      Outcome.inputError := by
  have h := spec_c10 envOff fileOther "pasted" "other pasted" "beginner" [] []
  exact ⟨h.1, h.2.1 (by decide) (by decide)⟩

/-- C2: when Voice Note is requested, the voice stage consumes
`text_for_voice` — the stored summary if present, else the first 1000
characters of the original — and before the TTS client is invoked this
text is truncated to its first 1000 characters (so at most 1000). -/
theorem spec_c2 (env : Env) (fmts : List String) (lvl t : String)
    (hv : "Voice Note" ∈ fmts) :
    (run_stages env fmts lvl t).audio =
      store_audio_if_truthy (generate_voice_note env (text_for_voice env fmts lvl t)) ∧
    (∀ s, (run_stages env fmts lvl t).summary = some s →
      text_for_voice env fmts lvl t = s) ∧
    ((run_stages env fmts lvl t).summary = none →
      text_for_voice env fmts lvl t = pySlice t 1000) ∧
    tts_input (text_for_voice env fmts lvl t) =
      pySlice (text_for_voice env fmts lvl t) 1000 ∧
    (tts_input (text_for_voice env fmts lvl t)).length ≤ 1000 ∧
    (env.tts_client = true →
      generate_voice_note env (text_for_voice env fmts lvl t) =
        env.synth (tts_input (text_for_voice env fmts lvl t))) := by
  refine ⟨?_, ?_, ?_, tts_input_eq _, ?_, ?_⟩
  · show stage_audio env fmts t (stage_summary env fmts lvl t) = _
    simp [stage_audio, hv, text_for_voice]
  · intro s hs
    have hs2 : stage_summary env fmts lvl t = some s := hs
    simp [text_for_voice, hs2]
  · intro hs
    have hs2 : stage_summary env fmts lvl t = none := hs
    simp [text_for_voice, hs2]
  · rw [tts_input_eq]
    exact pySlice_length_le _ _
  · intro htts
    simp [generate_voice_note, htts]

/-- C2 witness: the voice stage evaluated in a fully configured
environment on a short text with no summary requested, so the source is
the 1000-character excerpt of the original. -/
theorem spec_c2_witness :
    (run_stages envOn ["Voice Note"] "beginner" "hi").audio =
      store_audio_if_truthy
        (generate_voice_note envOn (text_for_voice envOn ["Voice Note"] "beginner" "hi")) ∧
    (tts_input (text_for_voice envOn ["Voice Note"] "beginner" "hi")).length ≤ 1000 := by
  have h := spec_c2 envOn ["Voice Note"] "beginner" "hi" (by decide)
  exact ⟨h.1, h.2.2.2.2.1⟩

/-- C4: with the Summarizer unavailable (no API key) and all three formats
requested, no summary is stored, the voice stage runs on the first 1000
characters of the original (passed to the TTS client unmodified, being
already within the limit), and the visual stage embeds the first 300
characters of the original into the fixed template. -/
theorem spec_c4 (env : Env) (fmts : List String) (lvl t : String)
    (hkey : env.openai_api_key = false)
    (hs : "Summary" ∈ fmts) (hv : "Voice Note" ∈ fmts)
    (hx : "Visual Explanation" ∈ fmts) :
    (run_stages env fmts lvl t).summary = none ∧
    (run_stages env fmts lvl t).audio =
      store_audio_if_truthy (generate_voice_note env (pySlice t 1000)) ∧
    (env.tts_client = true →
      generate_voice_note env (pySlice t 1000) = env.synth (pySlice t 1000)) ∧
    (run_stages env fmts lvl t).visual =
      some (visual_prompt_head ++ pySlice t 300 ++ visual_prompt_tail) := by
  have hsum : stage_summary env fmts lvl t = none := by
    simp [stage_summary, simplify_content_with_gpt, hkey, store_if_truthy]
  have h35 : pySlice (pySlice t 500) 300 = pySlice t 300 := by
    rw [pySlice_pySlice]
    norm_num
  refine ⟨hsum, ?_, ?_, ?_⟩
  · show stage_audio env fmts t (stage_summary env fmts lvl t) = _
    rw [hsum]
    simp [stage_audio, hv]
  · intro htts
    have h11 : tts_input (pySlice t 1000) = pySlice t 1000 :=
      tts_input_of_short _ (pySlice_length_le t 1000)
    simp [generate_voice_note, htts, h11]
  · show stage_visual fmts t (stage_summary env fmts lvl t) = _
    rw [hsum]
    simp only [stage_visual, Option.getD_none, create_visual_explanation, if_pos hx]
    rw [h35]
    show store_if_truthy (some _) = _
    simp [store_if_truthy, visual_ne_empty]

/-- C4 witness: the degraded run evaluated with no capabilities configured
and all formats requested. -/
theorem spec_c4_witness :
    (run_stages envOff ["Summary", "Voice Note", "Visual Explanation"]
      "beginner" "hello").summary = none ∧
    (run_stages envOff ["Summary", "Voice Note", "Visual Explanation"]
      "beginner" "hello").visual =
      some (visual_prompt_head ++ pySlice "hello" 300 ++ visual_prompt_tail) := by
  have h := spec_c4 envOff ["Summary", "Voice Note", "Visual Explanation"]
    "beginner" "hello" rfl (by decide) (by decide) (by decide)
  exact ⟨h.1, h.2.2.2⟩

/-- C5: over non-empty original text, the compression statistic is 0
exactly when no summary was stored, and equals
summary length / original length * 100 in exact rational arithmetic when
one was (the denominator being nonzero by the non-empty precondition). -/
theorem spec_c5 (env : Env) (fmts : List String) (lvl t : String) (ht : t ≠ "") :
    (compressionPct (run_stages env fmts lvl t) t = 0 ↔
      (run_stages env fmts lvl t).summary = none) ∧
    (∀ s, (run_stages env fmts lvl t).summary = some s →
      compressionPct (run_stages env fmts lvl t) t =
        (s.length : ℚ) / (t.length : ℚ) * 100) := by
  have htl : t.length ≠ 0 := fun h0 => ht (string_eq_empty_of_length t h0)
  constructor
  · constructor
    · intro h0
      cases hsum : (run_stages env fmts lvl t).summary with
      | none => rfl
      | some s =>
          exfalso
          have hsne : s ≠ "" := stage_summary_ne_empty env fmts lvl t s hsum
          have hsl : s.length ≠ 0 := fun h => hsne (string_eq_empty_of_length s h)
          simp only [compressionPct, hsum] at h0
          have hne : (s.length : ℚ) / (t.length : ℚ) * 100 ≠ 0 :=
            mul_ne_zero
              (div_ne_zero (Nat.cast_ne_zero.mpr hsl) (Nat.cast_ne_zero.mpr htl))
              (by norm_num)
          exact hne (by simpa using h0)
    · intro hnone
      simp [compressionPct, hnone]
  · intro s hsum
    simp [compressionPct, hsum]

/-- C5 witness: the statistic evaluated on a run with no summary stage
requested over concrete non-empty text. -/
theorem spec_c5_witness :
    compressionPct (run_stages envOff [] "beginner" "hi") "hi" = 0 ↔
      (run_stages envOff [] "beginner" "hi").summary = none :=
  (spec_c5 envOff [] "beginner" "hi" (by decide)).1

/-- C9: a Summarizer call that succeeds but returns the empty string is
treated as absent — no summary is stored, voice and visual stages fall
back to the original-text excerpts, the compression statistic is 0 — and
in general every stored summary is non-empty. -/
theorem spec_c9 (env : Env) (fmts : List String) (lvl t : String)
    (hempty : simplify_content_with_gpt env t lvl = some "") :
    (run_stages env fmts lvl t).summary = none ∧
    ("Voice Note" ∈ fmts →
      (run_stages env fmts lvl t).audio =
        store_audio_if_truthy (generate_voice_note env (pySlice t 1000))) ∧
    ("Visual Explanation" ∈ fmts →
      (run_stages env fmts lvl t).visual =
        some (visual_prompt_head ++ pySlice t 300 ++ visual_prompt_tail)) ∧
    compressionPct (run_stages env fmts lvl t) t = 0 ∧
    (∀ (env2 : Env) (fmts2 : List String) (lvl2 t2 s : String),
      (run_stages env2 fmts2 lvl2 t2).summary = some s → s ≠ "") := by
  have hsum : stage_summary env fmts lvl t = none := by
    simp [stage_summary, hempty, store_if_truthy]
  have h35 : pySlice (pySlice t 500) 300 = pySlice t 300 := by
    rw [pySlice_pySlice]
    norm_num
  refine ⟨hsum, ?_, ?_, ?_, ?_⟩
  · intro hv
    show stage_audio env fmts t (stage_summary env fmts lvl t) = _
    rw [hsum]
    simp [stage_audio, hv]
  · intro hx
    show stage_visual fmts t (stage_summary env fmts lvl t) = _
    rw [hsum]
    simp only [stage_visual, Option.getD_none, create_visual_explanation, if_pos hx]
    rw [h35]
    show store_if_truthy (some _) = _
    simp [store_if_truthy, visual_ne_empty]
  · have hsum2 : (run_stages env fmts lvl t).summary = none := hsum
    simp [compressionPct, hsum2]
  · intro env2 fmts2 lvl2 t2 s hs
    exact stage_summary_ne_empty env2 fmts2 lvl2 t2 s hs

/-- C9 witness: the empty-summary run evaluated with a configured chat
endpoint that returns the empty string. -/
theorem spec_c9_witness :
    (run_stages envEmptyChat ["Summary", "Voice Note", "Visual Explanation"]
      "beginner" "hi").summary = none ∧
    compressionPct (run_stages envEmptyChat
      ["Summary", "Voice Note", "Visual Explanation"] "beginner" "hi") "hi" = 0 := by
  have h := spec_c9 envEmptyChat ["Summary", "Voice Note", "Visual Explanation"]
    "beginner" "hi" rfl
  exact ⟨h.1, h.2.2.2.1⟩

end StudyApp
